import Mathlib

/-!
Shallow embedding of the agent orchestration core in `agent.py`
(class `AIAgent`): conversation memory, query classification,
data-lookup dispatch, answer synthesis, and the end-to-end
`process_query` pipeline.

Modelling conventions:
* Python strings are `String`; Python `s[:n]` slices by code points,
  embedded as `pySlice`; `str.strip()` is `pyStrip`.
* The two data-lookup tools (`WeatherTool.get_weather`,
  `NewsTool.get_news`) honour their record-or-null contract, so each is
  an oracle `String → Option ToolRecord`; the structured record payload
  is abstracted to a field list, with Python dict truthiness
  (`if tool_data:`) embedded as `pyTruthy` (empty dict is falsy).
* The chat-completion capability is an oracle from the user prompt to
  an outcome.  For the classification call the outcome folds in
  `json.loads` of the returned text: either the call raised, or the
  text failed to parse as JSON, or it parsed to an object whose
  relevant fields are read with `.get` (JSON values are abstracted to
  strings; an absent key and a JSON null are conflated as `none`).
  For the synthesis call the outcome is raised-or-returned text.
-/

/-- Characters stripped by Python `str.strip()` (ASCII whitespace). -/
def pyIsSpace (c : Char) : Bool :=
  c = ' ' || c = '\t' || c = '\n' || c = '\x0d' || c = '\x0b' || c = '\x0c'

/-- Python `s.strip()`: drop leading and trailing whitespace. -/
def pyStrip (s : String) : String :=
  ⟨((s.data.dropWhile pyIsSpace).reverse.dropWhile pyIsSpace).reverse⟩

/-- Python `s[:n]`: prefix of at most `n` code points. -/
def pySlice (s : String) (n : Nat) : String :=
  ⟨s.data.take n⟩

/-- Abstraction of the structured payload returned by a data-lookup tool
(a JSON-like dict, kept opaque as a list of key/value fields). -/
abbrev ToolRecord := List (String × String)

/-- Python truthiness of the optional tool data: `None` and the empty
dict are falsy, a non-empty dict is truthy. -/
def pyTruthy : Option ToolRecord → Bool
  | none => false
  | some d => !d.isEmpty

/-- The dictionary returned by `generate_final_answer` / `process_query`:
`{"reasoning": ..., "answer": ..., "tool_used": ..., "raw_data": ...}`. -/
structure AgentResult where
  reasoning : String
  answer : String
  tool_used : String
  raw_data : Option ToolRecord
deriving DecidableEq, Repr

/-- One entry of `self.memory`: `{"query": ..., "response": ...}`. -/
structure MemoryEntry where
  query : String
  response : AgentResult
deriving DecidableEq, Repr

/-- Capacity `self.max_memory_size` set in `AIAgent.__init__`. -/
def max_memory_size : Nat := 5

/-- Embedding of `AIAgent.add_to_memory`: append the pair, then `pop(0)` when the
length exceeds `max_memory_size`. -/
def add_to_memory (memory : List MemoryEntry) (query : String)
    (response : AgentResult) : List MemoryEntry :=
  let m := memory ++ [{ query := query, response := response }]
  if max_memory_size < m.length then m.drop 1 else m

/-- Folding a whole sequence of `add_to_memory` calls over an initial
buffer (the buffer starts empty at `AIAgent.__init__`). -/
def memory_append_all (seq : List (String × AgentResult)) : List MemoryEntry :=
  seq.foldl (fun m e => add_to_memory m e.1 e.2) []

/-- The body of the `for i, item in enumerate(self.memory[-3:], 1)` loop
in `AIAgent.get_memory_context`, one iteration per entry, counter `i`. -/
def memory_context_loop : Nat → List MemoryEntry → String
  | _, [] => ""
  | i, item :: rest =>
    toString i ++ ". User: " ++ item.query ++ "\n" ++
      "   Assistant: " ++ pySlice item.response.answer 100 ++ "...\n" ++
      memory_context_loop (i + 1) rest

/-- Embedding of `AIAgent.get_memory_context`: empty string on empty memory,
otherwise a header plus the numbered rendering of `self.memory[-3:]`. -/
def get_memory_context (memory : List MemoryEntry) : String :=
  if memory.isEmpty then ""
  else
    "\n\nRecent conversation history:\n" ++
      memory_context_loop 1 (memory.drop (memory.length - 3))

/-- The JSON object the classification prompt asks the model for, as
read back by `classification.get(...)` in `AIAgent.classify_query`:
each field is `none` when the key is absent (or JSON null). -/
structure ClassificationJson where
  tool : Option String
  parameter : Option String
  reasoning : Option String
deriving DecidableEq, Repr

/-- Outcome of the classification completion call, with `json.loads` of
the returned text folded in: the call raised, or the text failed to
parse, or it parsed to a JSON object. -/
inductive ClassifyOutcome where
  | raised (msg : String)
  | badJson (text : String)
  | parsed (c : ClassificationJson)
deriving DecidableEq, Repr

/-- Outcome of the synthesis completion call: raised, or returned text
(`response.choices[0].message.content`). -/
inductive SynthOutcome where
  | raised (msg : String)
  | returned (text : String)
deriving DecidableEq, Repr

/-- The `classification_prompt` f-string built in `AIAgent.classify_query`. -/
def classification_prompt (query : String) : String :=
  "You are an AI assistant that classifies user queries to determine which tool to use.\n\n" ++
  "Analyze the following query and determine which tool is most appropriate:\n" ++
  "- \"weather\" if the query asks about current weather, temperature, or weather conditions\n" ++
  "- \"news\" if the query asks about recent news, current events, or latest information about a topic\n" ++
  "- \"llm_only\" if the query is conversational, opinion-based, asks for facts/knowledge, or doesn\x27t need external data\n\n" ++
  "Query: \"" ++ query ++ "\"\n\n" ++
  "Respond in JSON format:\n\x7b\n" ++
  "    \"tool\": \"tool_name\",\n" ++
  "    \"parameter\": \"extracted parameter (city name, topic, search term, etc.)\",\n" ++
  "    \"reasoning\": \"brief explanation of why this tool was chosen\"\n\x7d"

/-- Embedding of `AIAgent.classify_query`: build the classification prompt, call the
completion capability, and read `tool` (default `"llm_only"`) and
`parameter` (default `None`) from the parsed JSON; on a raised call or
a JSON parse failure return `("llm_only", None)`. -/
def classify_query (classifyComplete : String → ClassifyOutcome)
    (query : String) : String × Option String :=
  match classifyComplete (classification_prompt query) with
  | .raised _ => ("llm_only", none)
  | .badJson _ => ("llm_only", none)
  | .parsed c => (c.tool.getD "llm_only", c.parameter)

/-- An invocation of one of the two data-lookup capabilities
(`use_weather_tool` / `use_news_tool`) with its argument. -/
inductive LookupCall where
  | weather (city : String)
  | news (topic : String)
deriving DecidableEq, Repr

/-- Step 2 of `AIAgent.process_query` (`tool_data = None; if tool_name
== "weather" and parameter: ... elif tool_name == "news" and parameter:
...`), instrumented with the list of lookup calls actually made.
Python truthiness of `parameter` is: not `None` and not `""`. -/
def lookup_dispatch (weatherLookup newsLookup : String → Option ToolRecord)
    (tool_name : String) (parameter : Option String) :
    Option ToolRecord × List LookupCall :=
  match parameter with
  | some p =>
    if tool_name = "weather" ∧ p ≠ "" then
      (weatherLookup p, [LookupCall.weather p])
    else if tool_name = "news" ∧ p ≠ "" then
      (newsLookup p, [LookupCall.news p])
    else (none, [])
  | none => (none, [])

/-- Abstraction of `json.dumps(tool_data, indent=2)` on the abstracted
record type (the exact serialisation is irrelevant to the claims). -/
def json_dumps_record (r : ToolRecord) : String :=
  "\x7b\n" ++
    String.intercalate ",\n"
      (r.map (fun kv => "  \"" ++ kv.1 ++ "\": \"" ++ kv.2 ++ "\"")) ++
  "\n\x7d"

/-- The tool-data prompt of `AIAgent.generate_final_answer` (the
`if tool_data:` branch). -/
def synth_prompt_with_tool (query : String) (tool_data : ToolRecord)
    (tool_name : String) (memory_context : String) : String :=
  "You are a helpful AI assistant. The user asked: \"" ++ query ++ "\"\n\n" ++
  "I fetched the following information using the " ++ tool_name ++ " tool:\n" ++
  json_dumps_record tool_data ++ "\n\n" ++
  "Based on this data, provide a natural, conversational answer to the user\x27s question. \n" ++
  "Be concise but informative. Don\x27t just repeat the data - synthesize it into a helpful response." ++
  memory_context

/-- The LLM-only prompt of `AIAgent.generate_final_answer` (the `else`
branch). -/
def synth_prompt_llm_only (query : String) (memory_context : String) : String :=
  "You are a helpful AI assistant. Answer the following question naturally and conversationally:\n\n" ++
  "Question: \"" ++ query ++ "\"" ++ memory_context ++ "\n\n" ++
  "Provide a clear, accurate, and helpful response."

/-- The templated rationale of the tool-data branch. -/
def reasoning_with_tool (tool_name : String) : String :=
  "The user asked about " ++ tool_name ++
  "-related information, so I fetched data from the " ++ tool_name.toUpper ++
  " API and combined it with my reasoning to form a comprehensive answer."

/-- The fixed rationale of the LLM-only branch. -/
def reasoning_llm_only : String :=
  "This query can be answered using my general knowledge without needing external tools."

/-- What `AIAgent.generate_final_answer` produced, together with the
prompt it sent to the completion capability and the memory context it
embedded there (both observable only inside the call in Python). -/
structure GenOut where
  result : AgentResult
  prompt : String
  contextUsed : String
deriving DecidableEq, Repr

/-- The prompt chosen by the `if tool_data:` branch of
`AIAgent.generate_final_answer` (Python dict truthiness). -/
def synth_prompt (query : String) (tool_data : Option ToolRecord)
    (tool_name : String) (memory_context : String) : String :=
  if pyTruthy tool_data then
    synth_prompt_with_tool query (tool_data.getD []) tool_name memory_context
  else synth_prompt_llm_only query memory_context

/-- The rationale chosen by the same `if tool_data:` branch. -/
def synth_reasoning (tool_data : Option ToolRecord) (tool_name : String) : String :=
  if pyTruthy tool_data then reasoning_with_tool tool_name
  else reasoning_llm_only

/-- Embedding of `AIAgent.generate_final_answer`: render the memory context, pick
the prompt and rationale by `if tool_data:`, call the completion
capability, and return the result dictionary (with `raw_data` set to
`tool_data if tool_data else None`); on a raised call return the
degraded apology result with `raw_data = None`. -/
def generate_final_answer (synthComplete : String → SynthOutcome)
    (memory : List MemoryEntry) (query : String)
    (tool_data : Option ToolRecord) (tool_name : String) : GenOut :=
  match synthComplete (synth_prompt query tool_data tool_name (get_memory_context memory)) with
  | .returned text =>
    { result :=
        { reasoning := synth_reasoning tool_data tool_name
          answer := pyStrip text
          tool_used := tool_name
          raw_data := if pyTruthy tool_data then tool_data else none }
      prompt := synth_prompt query tool_data tool_name (get_memory_context memory)
      contextUsed := get_memory_context memory }
  | .raised msg =>
    { result :=
        { reasoning := "An error occurred while generating the response."
          answer := "I apologize, but I encountered an error while processing your request. Error: " ++ msg
          tool_used := tool_name
          raw_data := none }
      prompt := synth_prompt query tool_data tool_name (get_memory_context memory)
      contextUsed := get_memory_context memory }

/-- The external collaborators of one `process_query` run: the
completion capability (split per call site, with the classification
outcome folding in `json.loads`) and the two data-lookup capabilities
(which honour their record-or-null contract by type). -/
structure Env where
  classifyComplete : String → ClassifyOutcome
  weatherLookup : String → Option ToolRecord
  newsLookup : String → Option ToolRecord
  synthComplete : String → SynthOutcome

/-- Everything observable about one `AIAgent.process_query` run: the
returned result, the memory buffer after the run, the lookup calls
made, and the synthesis prompt and memory context used. -/
structure ProcOut where
  result : AgentResult
  memory : List MemoryEntry
  calls : List LookupCall
  prompt : String
  contextUsed : String

/-- Embedding of `AIAgent.process_query`: classify, conditionally dispatch a lookup,
synthesise the final answer, then append `{query, result}` to memory. -/
def process_query (env : Env) (memory : List MemoryEntry)
    (query : String) : ProcOut :=
  let tp := classify_query env.classifyComplete query
  let dc := lookup_dispatch env.weatherLookup env.newsLookup tp.1 tp.2
  let g := generate_final_answer env.synthComplete memory query dc.1 tp.1
  { result := g.result
    memory := add_to_memory memory query g.result
    calls := dc.2
    prompt := g.prompt
    contextUsed := g.contextUsed }

/-- The three tool labels the classification prompt asks for. -/
def validToolLabels : List String := ["weather", "news", "llm_only"]

/-- Hypothesis on the synthesis completion capability: every outcome
either raises or returns text that is non-empty after stripping. -/
def synth_outcomes_nonempty (synthComplete : String → SynthOutcome) : Prop :=
  ∀ p, (∃ m, synthComplete p = SynthOutcome.raised m) ∨
       (∃ s, synthComplete p = SynthOutcome.returned s ∧ pyStrip s ≠ "")

/-- Helper: one `add_to_memory` step on a buffer within capacity is an
append followed by dropping the overflow (0 or 1 entries). -/
theorem add_to_memory_eq_drop (mem : List MemoryEntry) (q : String) (r : AgentResult)
    (h : mem.length ≤ max_memory_size) :
    add_to_memory mem q r =
      (mem ++ [MemoryEntry.mk q r]).drop (mem.length + 1 - max_memory_size) := by
  unfold add_to_memory
  simp only [List.length_append, List.length_cons, List.length_nil, max_memory_size] at *
  split
  · congr 1
    omega
  · have h0 : mem.length + 1 - 5 = 0 := by omega
    rw [h0, List.drop_zero]

/-- Helper: one `add_to_memory` step keeps the length at `min (n+1) 5`. -/
theorem add_to_memory_length (mem : List MemoryEntry) (q : String) (r : AgentResult)
    (h : mem.length ≤ max_memory_size) :
    (add_to_memory mem q r).length = min (mem.length + 1) max_memory_size := by
  rw [add_to_memory_eq_drop mem q r h, List.length_drop]
  simp only [List.length_append, List.length_cons, List.length_nil, max_memory_size] at *
  omega

/-- Helper: folding `add_to_memory` over any sequence from any buffer
within capacity yields the suffix of the appended list that fits. -/
theorem foldl_add_to_memory_eq (seq : List (String × AgentResult)) :
    ∀ (mem : List MemoryEntry), mem.length ≤ max_memory_size →
      seq.foldl (fun m e => add_to_memory m e.1 e.2) mem =
        (mem ++ seq.map (fun e => MemoryEntry.mk e.1 e.2)).drop
          (mem.length + seq.length - max_memory_size) := by
  induction seq with
  | nil =>
    intro mem h
    simp only [List.foldl_nil, List.map_nil, List.append_nil, List.length_nil, Nat.add_zero]
    have h0 : mem.length - max_memory_size = 0 := by
      simp only [max_memory_size] at *; omega
    rw [h0, List.drop_zero]
  | cons e rest ih =>
    intro mem h
    have hlen : (add_to_memory mem e.1 e.2).length ≤ max_memory_size := by
      rw [add_to_memory_length mem e.1 e.2 h]
      exact Nat.min_le_right _ _
    rw [List.foldl_cons, ih _ hlen, add_to_memory_length mem e.1 e.2 h,
      add_to_memory_eq_drop mem e.1 e.2 h]
    rw [← List.drop_append_of_le_length (by
      simp only [List.length_append, List.length_cons, List.length_nil, max_memory_size]
      omega)]
    rw [List.drop_drop, List.map_cons]
    congr 1
    · simp only [List.length_append, List.length_drop, List.length_map,
        List.length_cons, List.length_nil, max_memory_size] at *
      omega
    · simp

/-- C1: for every sequence of `add_to_memory` appends starting from the
empty buffer, the buffer length stays at most the capacity 5 (it equals
`min n 5`), and the buffer holds exactly the last 5 appended entries in
insertion order (FIFO eviction of the oldest). -/
theorem memory_capacity_fifo (seq : List (String × AgentResult)) :
    (memory_append_all seq).length ≤ max_memory_size ∧
    (memory_append_all seq).length = min seq.length max_memory_size ∧
    memory_append_all seq =
      (seq.map (fun e => MemoryEntry.mk e.1 e.2)).drop (seq.length - max_memory_size) := by
  have h := foldl_add_to_memory_eq seq [] (by simp [max_memory_size])
  simp only [List.nil_append, List.length_nil, Nat.zero_add] at h
  unfold memory_append_all
  rw [h, List.length_drop, List.length_map]
  refine ⟨?_, ?_, rfl⟩ <;> simp only [max_memory_size] <;> omega

/-- Helper: a `String.foldl`-style join shifted by an accumulator. -/
theorem foldl_append_shift (l : List String) (a : String) :
    l.foldl (fun r s => r ++ s) a = a ++ l.foldl (fun r s => r ++ s) "" := by
  induction l generalizing a with
  | nil => simp [String.append_empty]
  | cons x xs ih =>
    simp only [List.foldl_cons]
    rw [ih (a ++ x), ih ("" ++ x)]
    simp [String.append_assoc, String.empty_append]

/-- Helper: `String.join` on a cons. -/
theorem join_cons_str (x : String) (l : List String) :
    String.join (x :: l) = x ++ String.join l := by
  show List.foldl (fun r s => r ++ s) "" (x :: l) = _
  rw [List.foldl_cons, foldl_append_shift l ("" ++ x)]
  simp [String.empty_append]
  rfl

/-- Helper: the rendering loop of `get_memory_context` equals the join
of the renderings of the entries enumerated from the start counter. -/
theorem memory_context_loop_eq_join (l : List MemoryEntry) :
    ∀ (i : Nat), memory_context_loop i l =
      String.join ((l.enumFrom i).map
        (fun p => toString p.1 ++ ". User: " ++ p.2.query ++ "\n" ++
          "   Assistant: " ++ pySlice p.2.response.answer 100 ++ "...\n")) := by
  induction l with
  | nil => intro i; rfl
  | cons x xs ih =>
    intro i
    rw [List.enumFrom_cons, List.map_cons, join_cons_str, memory_context_loop, ih (i + 1)]

/-- Helper: a Python `[:n]` slice has length at most `n`. -/
theorem pySlice_length_le (s : String) (n : Nat) : (pySlice s n).length ≤ n := by
  show (s.data.take n).length ≤ n
  rw [List.length_take]
  exact Nat.min_le_left _ _

/-- C8: `get_memory_context` returns the empty string on an empty
buffer; on a non-empty buffer it renders exactly the last
`min 3 size` entries as a numbered block (numbered from 1), each entry
showing the original query and an at-most-100-character prefix of the
stored answer followed by an ellipsis. -/
theorem memory_context_spec (memory : List MemoryEntry) :
    (memory = [] → get_memory_context memory = "") ∧
    (memory ≠ [] →
      (memory.drop (memory.length - 3)).length = min 3 memory.length ∧
      get_memory_context memory =
        "\n\nRecent conversation history:\n" ++
          String.join (((memory.drop (memory.length - 3)).enumFrom 1).map
            (fun p => toString p.1 ++ ". User: " ++ p.2.query ++ "\n" ++
              "   Assistant: " ++ pySlice p.2.response.answer 100 ++ "...\n")) ∧
      ∀ item ∈ memory.drop (memory.length - 3),
        (pySlice item.response.answer 100).length ≤ 100) := by
  constructor
  · intro h; subst h; rfl
  · intro h
    have hne : memory.isEmpty = false := by
      cases memory with
      | nil => exact absurd rfl h
      | cons a l => rfl
    refine ⟨?_, ?_, ?_⟩
    · rw [List.length_drop]
      omega
    · simp only [get_memory_context, hne, Bool.false_eq_true, if_false]
      rw [memory_context_loop_eq_join]
    · intro item _
      exact pySlice_length_le _ _

/-- Witness for C8 at the empty buffer. -/
theorem memory_context_spec_witness : get_memory_context [] = "" :=
  (memory_context_spec []).1 rfl

/-- C3 counterexample: the code does not validate the tool label — when
the completion returns valid JSON whose `tool` field is `"banana"`,
`classify_query` returns `"banana"`, outside {weather, news, llm_only}. -/
theorem classify_label_unvalidated :
    (classify_query (fun _ => ClassifyOutcome.parsed
      { tool := some "banana", parameter := some "Paris", reasoning := none })
      "What is happening?").1 ∉ validToolLabels := by decide

/-- C3 (amended): `classify_query` always returns a pair; its tool
selection lies in {weather, news, llm_only} provided every parsed
`tool` field is absent or itself one of those labels, and its parameter
is null provided no `parameter` field was extracted (the raised and
parse-failure outcomes satisfy both unconditionally); the code passes
both fields through without validation. -/
theorem classify_guarantee_amended (classifyComplete : String → ClassifyOutcome) (query : String)
    (htool : ∀ c t, classifyComplete (classification_prompt query) = ClassifyOutcome.parsed c →
      c.tool = some t → t ∈ validToolLabels) :
    (classify_query classifyComplete query).1 ∈ validToolLabels ∧
    ((∀ c, classifyComplete (classification_prompt query) = ClassifyOutcome.parsed c →
        c.parameter = none) →
      (classify_query classifyComplete query).2 = none) := by
  rcases hcc : classifyComplete (classification_prompt query) with m | t | c
  · exact ⟨by simp only [classify_query, hcc]; decide,
      fun _ => by simp only [classify_query, hcc]⟩
  · exact ⟨by simp only [classify_query, hcc]; decide,
      fun _ => by simp only [classify_query, hcc]⟩
  · constructor
    · show (classify_query classifyComplete query).1 ∈ validToolLabels
      have h1 : (classify_query classifyComplete query).1 = c.tool.getD "llm_only" := by
        simp only [classify_query, hcc]
      rw [h1]
      cases htool2 : c.tool with
      | none => decide
      | some t =>
        simp only [Option.getD_some]
        exact htool c t hcc htool2
    · intro hp
      have h2 : (classify_query classifyComplete query).2 = c.parameter := by
        simp only [classify_query, hcc]
      rw [h2]
      exact hp c rfl

/-- Witness for C3 (amended) at a well-behaved classification outcome. -/
theorem classify_guarantee_amended_witness :
    (classify_query (fun _ => ClassifyOutcome.parsed
      { tool := some "weather", parameter := some "Paris", reasoning := none })
      "weather in Paris?").1 ∈ validToolLabels :=
  (classify_guarantee_amended _ "weather in Paris?" (fun c t hc ht => by
    cases hc; cases ht; decide)).1

/-- C4: if the classification completion raises, or its text fails to
parse as JSON, `classify_query` returns `("llm_only", none)` (and, being
a total function, never raises). -/
theorem classify_fail_open (classifyComplete : String → ClassifyOutcome) (query : String)
    (h : (∃ m, classifyComplete (classification_prompt query) = ClassifyOutcome.raised m) ∨
         (∃ s, classifyComplete (classification_prompt query) = ClassifyOutcome.badJson s)) :
    classify_query classifyComplete query = ("llm_only", none) := by
  rcases h with ⟨m, hm⟩ | ⟨s, hs⟩
  · simp only [classify_query, hm]
  · simp only [classify_query, hs]

/-- Witness for C4 at a raising completion capability. -/
theorem classify_fail_open_witness :
    classify_query (fun _ => ClassifyOutcome.raised "rate limit") "hello" = ("llm_only", none) :=
  classify_fail_open (fun _ => ClassifyOutcome.raised "rate limit") "hello"
    (Or.inl ⟨"rate limit", rfl⟩)

/-- Helper: a string with a non-empty prefix is non-empty. -/
theorem string_append_ne_empty (s t : String) (h : s.data ≠ []) : s ++ t ≠ "" := by
  intro hc
  apply h
  have h2 : (s ++ t).data = ([] : List Char) := by rw [hc]
  rw [String.data_append] at h2
  exact (List.append_eq_nil.mp h2).1

/-- Helper: under `synth_outcomes_nonempty`, every `generate_final_answer`
result has a non-empty answer (the apology branch is non-empty by
construction, the success branch by hypothesis). -/
theorem generate_answer_nonempty (synthComplete : String → SynthOutcome)
    (memory : List MemoryEntry) (query : String) (tool_data : Option ToolRecord)
    (tool_name : String) (h : synth_outcomes_nonempty synthComplete) :
    (generate_final_answer synthComplete memory query tool_data tool_name).result.answer ≠ "" := by
  rcases h (synth_prompt query tool_data tool_name (get_memory_context memory)) with
    ⟨m, hm⟩ | ⟨s, hs, hne⟩
  · simp only [generate_final_answer, hm]
    exact string_append_ne_empty _ m (by decide)
  · simp only [generate_final_answer, hs]
    exact hne

/-- C2 (amended): `process_query` is total (never raises, always
returns a result) and its answer is non-empty provided every synthesis
completion outcome either raises or returns text that is non-empty
after stripping; the code does not guard against an empty completion. -/
theorem process_answer_nonempty (env : Env) (memory : List MemoryEntry) (query : String)
    (h : synth_outcomes_nonempty env.synthComplete) :
    (process_query env memory query).result.answer ≠ "" :=
  generate_answer_nonempty env.synthComplete memory query
    (lookup_dispatch env.weatherLookup env.newsLookup
      (classify_query env.classifyComplete query).1
      (classify_query env.classifyComplete query).2).1
    (classify_query env.classifyComplete query).1 h

/-- Witness for C2 (amended) at a concrete environment. -/
theorem process_answer_nonempty_witness :
    (process_query
      { classifyComplete := fun _ => ClassifyOutcome.raised "connection error"
        weatherLookup := fun _ => none
        newsLookup := fun _ => none
        synthComplete := fun _ => SynthOutcome.returned "Hello there." } [] "hi").result.answer ≠ "" :=
  process_answer_nonempty _ [] "hi" (fun _ => Or.inr ⟨"Hello there.", rfl, by decide⟩)

/-- C2 counterexample: when the synthesis completion returns the empty
string, `process_query` returns a result whose answer is empty — the
unconditional non-empty-answer claim fails on the code. -/
theorem process_empty_answer_possible :
    (process_query
      { classifyComplete := fun _ => ClassifyOutcome.raised "connection error"
        weatherLookup := fun _ => none
        newsLookup := fun _ => none
        synthComplete := fun _ => SynthOutcome.returned "" } [] "hello").result.answer = "" := rfl

/-- Helper: the instrumented dispatch makes a call iff the tool label is
weather or news and the parameter is a non-empty string, and the call
made is the corresponding one. -/
theorem lookup_dispatch_calls (wx nw : String → Option ToolRecord) (t : String) (p : Option String) :
    ((lookup_dispatch wx nw t p).2 ≠ [] ↔
      ((t = "weather" ∨ t = "news") ∧ ∃ s, p = some s ∧ s ≠ "")) ∧
    (∀ s, p = some s → s ≠ "" →
      (t = "weather" → (lookup_dispatch wx nw t p).2 = [LookupCall.weather s]) ∧
      (t = "news" → (lookup_dispatch wx nw t p).2 = [LookupCall.news s])) := by
  cases p with
  | none => simp [lookup_dispatch]
  | some s0 =>
    simp only [lookup_dispatch]
    split_ifs with h1 h2
    · obtain ⟨rfl, hs⟩ := h1
      refine ⟨⟨fun _ => ⟨Or.inl rfl, s0, rfl, hs⟩, fun _ => by simp⟩, ?_⟩
      rintro s hsome hne
      cases hsome
      exact ⟨fun _ => rfl, fun hw => absurd hw (by decide)⟩
    · obtain ⟨rfl, hs⟩ := h2
      refine ⟨⟨fun _ => ⟨Or.inr rfl, s0, rfl, hs⟩, fun _ => by simp⟩, ?_⟩
      rintro s hsome hne
      cases hsome
      exact ⟨fun hw => absurd hw (by decide), fun _ => rfl⟩
    · constructor
      · constructor
        · intro hfalse
          exact absurd rfl hfalse
        · rintro ⟨ht, s, hsome, hne⟩
          cases hsome
          rcases ht with rfl | rfl
          · exact absurd ⟨rfl, hne⟩ h1
          · exact absurd ⟨rfl, hne⟩ h2
      · rintro s hsome hne
        cases hsome
        exact ⟨fun ht => absurd ⟨ht, hne⟩ h1, fun ht => absurd ⟨ht, hne⟩ h2⟩

/-- C5: during `process_query` a data-lookup capability is invoked iff
the classified tool is weather or news and the extracted parameter is a
non-null, non-empty string; when invoked, the single call made is the
corresponding capability applied to that parameter; in every other case
no lookup call is made. -/
theorem process_lookup_iff (env : Env) (memory : List MemoryEntry) (query : String) :
    ((process_query env memory query).calls ≠ [] ↔
      (((classify_query env.classifyComplete query).1 = "weather" ∨
        (classify_query env.classifyComplete query).1 = "news") ∧
       ∃ s, (classify_query env.classifyComplete query).2 = some s ∧ s ≠ "")) ∧
    (∀ s, (classify_query env.classifyComplete query).2 = some s → s ≠ "" →
      ((classify_query env.classifyComplete query).1 = "weather" →
        (process_query env memory query).calls = [LookupCall.weather s]) ∧
      ((classify_query env.classifyComplete query).1 = "news" →
        (process_query env memory query).calls = [LookupCall.news s])) :=
  lookup_dispatch_calls env.weatherLookup env.newsLookup _ _

/-- Witness for C5: a weather classification with parameter "Paris"
does trigger a lookup call. -/
theorem process_lookup_iff_witness :
    (process_query
      { classifyComplete := fun _ => ClassifyOutcome.parsed
          { tool := some "weather", parameter := some "Paris", reasoning := none }
        weatherLookup := fun _ => none
        newsLookup := fun _ => none
        synthComplete := fun _ => SynthOutcome.returned "ok" } [] "weather?").calls ≠ [] :=
  (process_lookup_iff _ [] "weather?").1.mpr ⟨Or.inl rfl, "Paris", rfl, by decide⟩

/-- Helper: the synthesised result always carries the tool name it was
given, in both the success and the apology branch. -/
theorem generate_tool_used (synthComplete : String → SynthOutcome)
    (memory : List MemoryEntry) (query : String) (tool_data : Option ToolRecord)
    (tool_name : String) :
    (generate_final_answer synthComplete memory query tool_data tool_name).result.tool_used
      = tool_name := by
  cases hs : synthComplete (synth_prompt query tool_data tool_name (get_memory_context memory)) with
  | raised m => simp only [generate_final_answer, hs]
  | returned t => simp only [generate_final_answer, hs]

/-- Helper: with no tool data the synthesised result has null raw data
in both branches. -/
theorem generate_none_raw_data (synthComplete : String → SynthOutcome)
    (memory : List MemoryEntry) (query : String) (tool_name : String) :
    (generate_final_answer synthComplete memory query none tool_name).result.raw_data = none := by
  cases hs : synthComplete (synth_prompt query none tool_name (get_memory_context memory)) with
  | raised m => simp only [generate_final_answer, hs]
  | returned t =>
    simp only [generate_final_answer, hs]
    rfl

/-- Helper: the memory context embedded into the synthesis prompt is
the one rendered from the buffer passed to `generate_final_answer`. -/
theorem generate_contextUsed (synthComplete : String → SynthOutcome)
    (memory : List MemoryEntry) (query : String) (tool_data : Option ToolRecord)
    (tool_name : String) :
    (generate_final_answer synthComplete memory query tool_data tool_name).contextUsed
      = get_memory_context memory := by
  cases hs : synthComplete (synth_prompt query tool_data tool_name (get_memory_context memory)) with
  | raised m => simp only [generate_final_answer, hs]
  | returned t => simp only [generate_final_answer, hs]

/-- C6 (amended): when a tool was selected and the corresponding lookup
returned null, `process_query` still returns a result with `tool_used`
equal to the selected tool and `raw_data` null, and the answer is
non-empty provided the synthesis completion raises or returns
non-whitespace text; an empty synthesis completion yields an empty
answer. -/
theorem failed_lookup_preserved (env : Env) (memory : List MemoryEntry) (query t s : String)
    (hcls : classify_query env.classifyComplete query = (t, some s))
    (ht : t = "weather" ∨ t = "news")
    (hs : s ≠ "")
    (hw : t = "weather" → env.weatherLookup s = none)
    (hn : t = "news" → env.newsLookup s = none)
    (hsynth : synth_outcomes_nonempty env.synthComplete) :
    (process_query env memory query).result.tool_used = t ∧
    (process_query env memory query).result.raw_data = none ∧
    (process_query env memory query).result.answer ≠ "" := by
  have htd : (lookup_dispatch env.weatherLookup env.newsLookup t (some s)).1 = none := by
    rcases ht with rfl | rfl
    · simp [lookup_dispatch, hs]
      exact hw rfl
    · simp [lookup_dispatch, hs]
      exact hn rfl
  have e1 : (process_query env memory query).result =
      (generate_final_answer env.synthComplete memory query
        ((lookup_dispatch env.weatherLookup env.newsLookup t (some s)).1) t).result := by
    simp only [process_query, hcls]
  rw [htd] at e1
  refine ⟨?_, ?_, ?_⟩
  · rw [e1]; exact generate_tool_used env.synthComplete memory query none t
  · rw [e1]; exact generate_none_raw_data env.synthComplete memory query t
  · rw [e1]; exact generate_answer_nonempty env.synthComplete memory query none t hsynth

/-- Witness for C6 (amended) at a concrete failed weather lookup. -/
theorem failed_lookup_preserved_witness :
    (process_query
      { classifyComplete := fun _ => ClassifyOutcome.parsed
          { tool := some "weather", parameter := some "Paris", reasoning := none }
        weatherLookup := fun _ => none
        newsLookup := fun _ => none
        synthComplete := fun _ => SynthOutcome.returned "Sorry, I could not fetch data." }
      [] "weather in Paris?").result.tool_used = "weather" ∧
    (process_query
      { classifyComplete := fun _ => ClassifyOutcome.parsed
          { tool := some "weather", parameter := some "Paris", reasoning := none }
        weatherLookup := fun _ => none
        newsLookup := fun _ => none
        synthComplete := fun _ => SynthOutcome.returned "Sorry, I could not fetch data." }
      [] "weather in Paris?").result.raw_data = none ∧
    (process_query
      { classifyComplete := fun _ => ClassifyOutcome.parsed
          { tool := some "weather", parameter := some "Paris", reasoning := none }
        weatherLookup := fun _ => none
        newsLookup := fun _ => none
        synthComplete := fun _ => SynthOutcome.returned "Sorry, I could not fetch data." }
      [] "weather in Paris?").result.answer ≠ "" :=
  failed_lookup_preserved _ [] "weather in Paris?" "weather" "Paris" rfl (Or.inl rfl)
    (by decide) (fun _ => rfl) (fun h => absurd h (by decide))
    (fun _ => Or.inr ⟨"Sorry, I could not fetch data.", rfl, by decide⟩)

/-- C6 counterexample: under the claim's own conditions (weather
selected, lookup returned null), an empty synthesis completion makes
the answer empty while `tool_used` and `raw_data` behave as claimed —
so the non-empty-answer part of the claim fails on the code. -/
theorem failed_lookup_empty_answer :
    (process_query
      { classifyComplete := fun _ => ClassifyOutcome.parsed
          { tool := some "weather", parameter := some "Paris", reasoning := none }
        weatherLookup := fun _ => none
        newsLookup := fun _ => none
        synthComplete := fun _ => SynthOutcome.returned "" }
      [] "weather in Paris?").result.tool_used = "weather" ∧
    (process_query
      { classifyComplete := fun _ => ClassifyOutcome.parsed
          { tool := some "weather", parameter := some "Paris", reasoning := none }
        weatherLookup := fun _ => none
        newsLookup := fun _ => none
        synthComplete := fun _ => SynthOutcome.returned "" }
      [] "weather in Paris?").result.raw_data = none ∧
    (process_query
      { classifyComplete := fun _ => ClassifyOutcome.parsed
          { tool := some "weather", parameter := some "Paris", reasoning := none }
        weatherLookup := fun _ => none
        newsLookup := fun _ => none
        synthComplete := fun _ => SynthOutcome.returned "" }
      [] "weather in Paris?").result.answer = "" :=
  ⟨rfl, rfl, rfl⟩

/-- C7: if the synthesis completion raises, `generate_final_answer`
returns (rather than propagates) the degraded result: rationale says an
error occurred, the answer is the apology with the failure detail
appended, `tool_used` is the tool name passed in, `raw_data` is null. -/
theorem synth_failure_degraded (synthComplete : String → SynthOutcome)
    (memory : List MemoryEntry) (query : String) (tool_data : Option ToolRecord)
    (tool_name : String) (msg : String)
    (h : ∀ p, synthComplete p = SynthOutcome.raised msg) :
    (generate_final_answer synthComplete memory query tool_data tool_name).result =
      { reasoning := "An error occurred while generating the response."
        answer := "I apologize, but I encountered an error while processing your request. Error: " ++ msg
        tool_used := tool_name
        raw_data := none } := by
  simp only [generate_final_answer, h]

/-- Witness for C7 at a concrete raising synthesis capability. -/
theorem synth_failure_degraded_witness :
    (generate_final_answer (fun _ => SynthOutcome.raised "timeout") [] "weather in Paris?"
      (some [("temperature", "21")]) "weather").result =
      { reasoning := "An error occurred while generating the response."
        answer := "I apologize, but I encountered an error while processing your request. Error: timeout"
        tool_used := "weather"
        raw_data := none } :=
  synth_failure_degraded (fun _ => SynthOutcome.raised "timeout") [] "weather in Paris?"
    (some [("temperature", "21")]) "weather" "timeout" (fun _ => rfl)

/-- C9: `process_query` appends exactly one entry pairing the query
with the produced result (evicting the oldest entry only when over
capacity), unconditionally for every environment — including degraded
results — and the memory context embedded in the synthesis prompt is
rendered from the buffer as it was before the append, so it never
includes the current turn. -/
theorem process_appends_after_synthesis (env : Env) (memory : List MemoryEntry) (query : String) :
    (process_query env memory query).memory =
      (memory ++ [MemoryEntry.mk query (process_query env memory query).result]).drop
        (if max_memory_size < memory.length + 1 then 1 else 0) ∧
    (process_query env memory query).contextUsed = get_memory_context memory := by
  constructor
  · show add_to_memory memory query (process_query env memory query).result = _
    unfold add_to_memory
    simp only [List.length_append, List.length_cons, List.length_nil, Nat.zero_add]
    split_ifs with h
    · rfl
    · rw [List.drop_zero]
  · show (generate_final_answer env.synthComplete memory query
      (lookup_dispatch env.weatherLookup env.newsLookup
        (classify_query env.classifyComplete query).1
        (classify_query env.classifyComplete query).2).1
      (classify_query env.classifyComplete query).1).contextUsed = get_memory_context memory
    exact generate_contextUsed env.synthComplete memory query _ _

/-- C10: in a successful synthesis the result's `raw_data` is non-null
iff the tool record is Python-truthy, and synthesising with an empty
record is indistinguishable from synthesising with no record at all
(same prompt branch, same result). -/
theorem raw_data_iff_truthy (synthComplete : String → SynthOutcome)
    (memory : List MemoryEntry) (query : String) (tool_data : Option ToolRecord)
    (tool_name : String)
    (hsucc : ∀ p, ∃ s, synthComplete p = SynthOutcome.returned s) :
    ((generate_final_answer synthComplete memory query tool_data tool_name).result.raw_data ≠ none
      ↔ pyTruthy tool_data = true) ∧
    generate_final_answer synthComplete memory query (some []) tool_name =
      generate_final_answer synthComplete memory query none tool_name := by
  constructor
  · obtain ⟨s, hs⟩ := hsucc (synth_prompt query tool_data tool_name (get_memory_context memory))
    simp only [generate_final_answer, hs]
    cases htd : pyTruthy tool_data
    · simp
    · cases tool_data with
      | none => simp [pyTruthy] at htd
      | some d => simp
  · rfl

/-- Witness for C10 at a truthy weather record. -/
theorem raw_data_iff_truthy_witness :
    (generate_final_answer (fun _ => SynthOutcome.returned "Sunny today.") [] "weather?"
      (some [("temperature", "21")]) "weather").result.raw_data ≠ none :=
  (raw_data_iff_truthy (fun _ => SynthOutcome.returned "Sunny today.") [] "weather?"
    (some [("temperature", "21")]) "weather" (fun _ => ⟨"Sunny today.", rfl⟩)).1.mpr rfl
